import Mathlib

/-!
Shallow embedding of the two source files of this repository fragment:

* `gpt_engineer/core/default/disk_execution_env.py` — `DiskExecutionEnv`, an
  execution environment that uploads a `FilesDict` to a working directory via a
  `FileStore` and runs shell commands against it, polling the child process and
  accumulating its stdout and stderr.
* `gpt_engineer/tools/experimental/code_vector_repository.py` —
  `CodeVectorRepository`, a façade over the llama-index library with lazy,
  cached construction of a query engine and a BM25 retriever.

The polling loop of `DiskExecutionEnv.run` (source lines 87-126) interacts with
the operating system: `p.poll()` may start reporting the exit code at any loop
iteration, the wall clock advances between iterations, and a KeyboardInterrupt
may be delivered during the loop.  These environment choices are modelled
explicitly by a `Sched` value; the lines the command writes to each stream and
its exit code are modelled by a `ProcBehavior` value.  A `readline` call on a
pipe yields the next pending line of that stream (it blocks until it is
available) and yields the empty string only at end of stream; in the model each
loop iteration therefore consumes the head of the remaining line list, and an
exhausted list yields the empty string, exactly matching the `if stdout:` /
`if stderr:` truthiness guards of the source.

The `FileStore` collaborator (`gpt_engineer/core/default/file_store.py`) is not
part of the sources of this fragment; it is modelled from the spec where
needed.  The llama-index library is external; its operations are abstract
parameters collected in a `LlamaLib` record, so every theorem about
`CodeVectorRepository` holds for an arbitrary behaviour of the library.
-/

/-- Concatenation of a list of output lines, in order — the value built up by
the repeated `stdout_full += stdout` / `stderr_full += stderr` of the polling
loop in `DiskExecutionEnv.run`. -/
def concatLines : List String → String
  | [] => ""
  | l :: ls => l ++ concatLines ls

/-- The string `sub` occurs contiguously inside `s` ("appears in" of the
content-completeness claims). -/
def appearsIn (sub s : String) : Prop :=
  ∃ pre post, s = pre ++ sub ++ post

/-- Observable behaviour of the child process spawned for a command: the lines
it writes to stdout and stderr (each as delivered by one `readline` call, so
normally ending in a newline) and the exit code it terminates with. -/
structure ProcBehavior where
  stdoutLines : List String
  stderrLines : List String
  exitCode : Int

/-- Environment schedule for one execution of the polling loop of
`DiskExecutionEnv.run`:

* `exitObservedAt` — the first loop iteration at which `p.poll()` returns the
  exit code instead of `None` (the process may be observed exited while lines
  are still buffered in its pipes);
* `elapsed k` — the value of `time.time() - start` at iteration `k`'s timeout
  check;
* `interruptAt` — the iteration at whose start a KeyboardInterrupt is
  delivered, if any. -/
structure Sched where
  exitObservedAt : Nat
  elapsed : Nat → Int
  interruptAt : Option Nat

/-- Result of one execution of the loop of `DiskExecutionEnv.run`:
the accumulated `stdout_full` and `stderr_full`, the `p.returncode` value
returned as third component (`none` models Python `None`, which `p.returncode`
still holds when the process was killed without a further poll), whether a
`TimeoutError` was raised, whether `p.kill()` was called, and whether the loop
ended because `p.poll()` reported that the process had exited. -/
structure RunTrace where
  stdout : String
  stderr : String
  returncode : Option Int
  raisedTimeout : Bool
  killed : Bool
  exitedObserved : Bool
deriving DecidableEq, Repr

/-- The guard `if timeout and time.time() - start > timeout` of source line
114: Python truthiness makes the whole guard false when `timeout` is `None`
or `0`. -/
def timeoutFires : Option Int → Int → Bool
  | none, _ => false
  | some t, elapsedNow => (t != 0) && decide (t < elapsedNow)

/-- The accumulation step `if stdout: stdout_full += stdout` (source lines
108-113): append the line just read unless it is empty. -/
def appendNonempty (acc line : String) : String :=
  if line ≠ "" then acc ++ line else acc

/-- The polling loop of `DiskExecutionEnv.run` (source lines 102-126).
Arguments: the `timeout` argument, the clock and interrupt schedule, the
process exit code, the iterations remaining until `p.poll()` first reports
exit, the current iteration index, the lines still pending on each stream, and
the two accumulators.  Each iteration first checks for a delivered
KeyboardInterrupt (caught by the `except` clause: kill, return accumulators
with the stale `p.returncode`, which is `None`), then polls, then reads one
line from each stream, accumulates the non-empty ones, and finally performs
the timeout check (kill and raise `TimeoutError`). -/
def runLoop (timeout : Option Int) (elapsed : Nat → Int) (interruptAt : Option Nat)
    (exitCode : Int) :
    Nat → Nat → List String → List String → String → String → RunTrace
  | 0, k, _outs, _errs, accOut, accErr =>
    if interruptAt = some k then
      ⟨accOut, accErr, none, false, true, false⟩
    else
      ⟨accOut, accErr, some exitCode, false, false, true⟩
  | rem + 1, k, outs, errs, accOut, accErr =>
    if interruptAt = some k then
      ⟨accOut, accErr, none, false, true, false⟩
    else if timeoutFires timeout (elapsed k) then
      ⟨appendNonempty accOut (outs.headD ""), appendNonempty accErr (errs.headD ""),
        none, true, true, false⟩
    else
      runLoop timeout elapsed interruptAt exitCode rem (k + 1) outs.tail errs.tail
        (appendNonempty accOut (outs.headD "")) (appendNonempty accErr (errs.headD ""))

/-- A collection of files: relative path mapped to content
(`gpt_engineer/core/files_dict.py`, consumed here as an association list with
unique keys). -/
abbrev FilesDict := List (String × String)

/-- Modelled from the spec: `FileStore` (`gpt_engineer/core/default/file_store.py`)
is not among the sources of this fragment.  Per the spec it "materializes an
in-memory file collection onto a working directory and reads it back", owns a
`working_dir` resolved at construction, and its upload failures "propagate
unchanged" to callers.  `files` is the file set currently materialized in the
working directory; `writable` models whether writes to the directory succeed. -/
structure FileStore where
  working_dir : String
  files : List (String × String)
  writable : Bool
deriving DecidableEq, Repr

/-- Write one file into a materialized directory listing: overwrite the entry
with the same path, or add the file if the path is new. -/
def upsertOne (fs : List (String × String)) (entry : String × String) :
    List (String × String) :=
  match fs with
  | [] => [entry]
  | kv :: rest =>
    if kv.1 = entry.1 then entry :: rest else kv :: upsertOne rest entry

/-- Write a whole `FilesDict` into a materialized directory listing, file by
file. -/
def upsertAll (fs : List (String × String)) (files : FilesDict) :
    List (String × String) :=
  files.foldl upsertOne fs

/-- Look up the content of a path in a materialized directory listing. -/
def lookupKey (fs : List (String × String)) (key : String) : Option String :=
  match fs with
  | [] => none
  | kv :: rest => if kv.1 = key then some kv.2 else lookupKey rest key

/-- Modelled from the spec: `FileStore.upload` writes the collection to the
working directory; a failure (e.g. an unwritable working directory) propagates
unchanged to the caller. -/
def FileStore.upload (store : FileStore) (files : FilesDict) :
    Except String FileStore :=
  if store.writable then
    Except.ok { store with files := upsertAll store.files files }
  else
    Except.error "working directory is not writable"

/-- Modelled from the spec: `FileStore.download` reads the current working
directory back into a file collection. -/
def FileStore.download (store : FileStore) : FilesDict :=
  store.files

/-- The execution environment of `disk_execution_env.py`: its only state is
the `FileStore` created in `__init__` (source lines 67-68). -/
structure DiskExecutionEnv where
  store : FileStore
deriving DecidableEq, Repr

/-- `DiskExecutionEnv.upload` (source lines 70-72): delegate to
`self.store.upload(files)` and return `self`; any delegate failure propagates
unchanged. -/
def DiskExecutionEnv.upload (env : DiskExecutionEnv) (files : FilesDict) :
    Except String DiskExecutionEnv :=
  match env.store.upload files with
  | Except.ok st => Except.ok { env with store := st }
  | Except.error e => Except.error e

/-- `DiskExecutionEnv.download` (source lines 74-75): delegate to
`self.store.download()`. -/
def DiskExecutionEnv.download (env : DiskExecutionEnv) : FilesDict :=
  env.store.download

/-- The observable configuration of a `subprocess.Popen` call as made by
`DiskExecutionEnv.popen` and `DiskExecutionEnv.run`: the command string,
whether the shell interprets it, the working directory passed as `cwd`, and
whether the streams are opened in text mode. -/
structure Popen where
  command : String
  shell : Bool
  cwd : String
  text : Bool
deriving DecidableEq, Repr

/-- `DiskExecutionEnv.popen` (source lines 77-85): spawn the command with
`shell=True` and `cwd=self.store.working_dir`; streams are byte pipes
(no `text=True`). -/
def DiskExecutionEnv.popen (env : DiskExecutionEnv) (command : String) : Popen :=
  ⟨command, true, env.store.working_dir, false⟩

/-- `DiskExecutionEnv.run` (source lines 87-126): spawn the command with
`shell=True`, `text=True` and `cwd=self.store.working_dir`, then execute the
polling loop under the given process behaviour and schedule.  The first
component records the spawn configuration; the second is the loop trace whose
`stdout`, `stderr` and `returncode` fields are the triple the Python function
returns. -/
def DiskExecutionEnv.run (env : DiskExecutionEnv) (command : String)
    (timeout : Option Int) (p : ProcBehavior) (s : Sched) : Popen × RunTrace :=
  (⟨command, true, env.store.working_dir, true⟩,
   runLoop timeout s.elapsed s.interruptAt p.exitCode
     s.exitObservedAt 0 p.stdoutLines p.stderrLines "" "")

/-- A Python exception relevant to `code_vector_repository.py`. -/
inductive PyErr where
  | valueError (msg : String)
deriving DecidableEq, Repr

/-- The operations `code_vector_repository.py` invokes on the external
llama-index / langchain libraries, abstracted over their types: document
loading, format conversion, chunking, index construction, query-engine
construction and querying, and BM25 retriever construction and retrieval.
Theorems quantify over an arbitrary such record, so they hold for every
behaviour of the external library. -/
structure LlamaLib (Doc LDoc Index Engine Retriever Answer Node : Type) where
  load_data : String → List Doc
  to_langchain_format : Doc → LDoc
  chunk_documents : List LDoc → List LDoc
  from_langchain_format : LDoc → Doc
  from_documents : List Doc → Index
  as_query_engine : Index → String → Engine
  engine_query : Engine → String → Answer
  bm25_from_defaults : Index → Nat → Retriever
  retrieve : Retriever → String → List Node

/-- The state of a `CodeVectorRepository` (source lines 30-36): the optional
index and the lazily constructed, cached query engine and retriever. -/
structure CodeVectorRepository (Index Engine Retriever : Type) where
  _index : Option Index
  _query_engine : Option Engine
  _retriever : Option Retriever
deriving DecidableEq, Repr

/-- `CodeVectorRepository.__init__` (source lines 30-36): all three attributes
start as `None`. -/
def CodeVectorRepository.init (Index Engine Retriever : Type) :
    CodeVectorRepository Index Engine Retriever :=
  ⟨none, none, none⟩

/-- `CodeVectorRepository.load_from_directory` (source lines 51-62): load the
documents, convert to langchain format, chunk, convert back, build the vector
index and store it in `_index`.  The cached `_query_engine` and `_retriever`
are not touched. -/
def CodeVectorRepository.load_from_directory
    {Doc LDoc Index Engine Retriever Answer Node : Type}
    (lib : LlamaLib Doc LDoc Index Engine Retriever Answer Node)
    (self : CodeVectorRepository Index Engine Retriever)
    (directory_path : String) : CodeVectorRepository Index Engine Retriever :=
  { self with
    _index := some (lib.from_documents
      ((lib.chunk_documents ((lib.load_data directory_path).map
        lib.to_langchain_format)).map lib.from_langchain_format)) }

/-- `CodeVectorRepository.query` (source lines 64-77): raise `ValueError` if
the index has not been loaded; otherwise construct and cache the query engine
on first use (`response_mode="tree_summarize"`) and query it.  The result pairs
the Python outcome (answer or raised exception) with the state of the instance
after the call. -/
def CodeVectorRepository.query
    {Doc LDoc Index Engine Retriever Answer Node : Type}
    (lib : LlamaLib Doc LDoc Index Engine Retriever Answer Node)
    (self : CodeVectorRepository Index Engine Retriever)
    (query_string : String) :
    Except PyErr Answer × CodeVectorRepository Index Engine Retriever :=
  match self._index with
  | none => (Except.error (PyErr.valueError "Index has not been loaded yet."), self)
  | some idx =>
    match self._query_engine with
    | some engine => (Except.ok (lib.engine_query engine query_string), self)
    | none =>
      (Except.ok (lib.engine_query (lib.as_query_engine idx "tree_summarize") query_string),
       { self with _query_engine := some (lib.as_query_engine idx "tree_summarize") })

/-- `CodeVectorRepository.relevent_code_chunks` (source lines 79-94): raise
`ValueError` if the index has not been loaded; otherwise construct and cache
the BM25 retriever on first use (`similarity_top_k=2`) and retrieve.  The
`llm` parameter of the source (default `"default"`) is accepted and, as in the
source body, unused. -/
def CodeVectorRepository.relevent_code_chunks
    {Doc LDoc Index Engine Retriever Answer Node : Type}
    (lib : LlamaLib Doc LDoc Index Engine Retriever Answer Node)
    (self : CodeVectorRepository Index Engine Retriever)
    (query_string : String) (llm : String) :
    Except PyErr (List Node) × CodeVectorRepository Index Engine Retriever :=
  match self._index with
  | none => (Except.error (PyErr.valueError "Index has not been loaded yet."), self)
  | some idx =>
    match self._retriever with
    | some retriever => (Except.ok (lib.retrieve retriever query_string), self)
    | none =>
      (Except.ok (lib.retrieve (lib.bm25_from_defaults idx 2) query_string),
       { self with _retriever := some (lib.bm25_from_defaults idx 2) })

/-- A concrete instantiation of the external library operations over `Nat`,
used to exercise the `CodeVectorRepository` theorems on computable inputs. -/
def natLib : LlamaLib Nat Nat Nat Nat Nat Nat Nat where
  load_data := fun _ => [1, 2]
  to_langchain_format := fun d => d
  chunk_documents := fun ds => ds
  from_langchain_format := fun d => d
  from_documents := fun docs => docs.length
  as_query_engine := fun idx _mode => idx + 1
  engine_query := fun engine q => engine + q.length
  bm25_from_defaults := fun idx top_k => idx + top_k
  retrieve := fun retriever q => [retriever, q.length]

/-! Helper lemmas about the polling loop and the string accumulators. -/

theorem appendNonempty_eq (a l : String) : appendNonempty a l = a ++ l := by
  unfold appendNonempty
  by_cases h : l = ""
  · simp [h, String.append_empty]
  · simp [h]

theorem concatLines_append (l₁ l₂ : List String) :
    concatLines (l₁ ++ l₂) = concatLines l₁ ++ concatLines l₂ := by
  induction l₁ with
  | nil => simp [concatLines, String.empty_append]
  | cons a l ih => simp [concatLines, ih, String.append_assoc]

theorem appearsIn_concatLines {a : String} {l : List String} (h : a ∈ l) :
    appearsIn a (concatLines l) := by
  obtain ⟨s, t, rfl⟩ := List.append_of_mem h
  refine ⟨concatLines s, concatLines t, ?_⟩
  rw [concatLines_append]
  simp [concatLines, String.append_assoc]

theorem runLoop_no_stop (el : Nat → Int) (c : Int) :
    ∀ (rem k : Nat) (outs errs : List String) (aO aE : String),
    runLoop none el none c rem k outs errs aO aE =
      ⟨aO ++ concatLines (outs.take rem), aE ++ concatLines (errs.take rem),
        some c, false, false, true⟩ := by
  intro rem
  induction rem with
  | zero =>
    intro k outs errs aO aE
    simp [runLoop, concatLines, String.append_empty]
  | succ rem ih =>
    intro k outs errs aO aE
    rw [runLoop]
    simp only [timeoutFires, reduceCtorEq, if_false, Bool.false_eq_true]
    rw [ih]
    cases outs with
    | nil =>
      cases errs with
      | nil => simp [appendNonempty_eq, concatLines, String.append_empty]
      | cons e es =>
        simp [appendNonempty_eq, concatLines, String.append_empty, String.append_assoc,
          List.take_succ_cons]
    | cons o os =>
      cases errs with
      | nil =>
        simp [appendNonempty_eq, concatLines, String.append_empty, String.append_assoc,
          List.take_succ_cons]
      | cons e es =>
        simp [appendNonempty_eq, concatLines, String.append_assoc, List.take_succ_cons]

theorem runLoop_interrupt (timeout : Option Int) (el : Nat → Int) (c : Int) :
    ∀ (i rem k : Nat) (outs errs : List String) (aO aE : String),
    i ≤ rem →
    (∀ j, j < i → timeoutFires timeout (el (k + j)) = false) →
    runLoop timeout el (some (k + i)) c rem k outs errs aO aE =
      ⟨aO ++ concatLines (outs.take i), aE ++ concatLines (errs.take i),
        none, false, true, false⟩ := by
  intro i
  induction i with
  | zero =>
    intro rem k outs errs aO aE _ _
    cases rem with
    | zero => simp [runLoop, concatLines, String.append_empty]
    | succ rem => simp [runLoop, concatLines, String.append_empty]
  | succ i ih =>
    intro rem k outs errs aO aE hle hfire
    cases rem with
    | zero => omega
    | succ rem =>
      rw [runLoop]
      have hne : ¬ (some (k + (i + 1)) = some k) := by
        intro h
        injection h with h
        omega
      rw [if_neg hne]
      have h0 : timeoutFires timeout (el k) = false := by
        have := hfire 0 (Nat.succ_pos i)
        simpa using this
      rw [h0]
      simp only [Bool.false_eq_true, if_false]
      have hshift : k + (i + 1) = (k + 1) + i := by omega
      rw [hshift]
      rw [ih rem (k + 1) outs.tail errs.tail _ _ (by omega)
        (fun j hj => by
          have := hfire (j + 1) (by omega)
          simpa [Nat.add_assoc, Nat.add_comm 1 j, Nat.add_left_comm] using this)]
      cases outs with
      | nil =>
        cases errs with
        | nil => simp [appendNonempty_eq, concatLines, String.append_empty]
        | cons e es =>
          simp [appendNonempty_eq, concatLines, String.append_empty, String.append_assoc,
            List.take_succ_cons]
      | cons o os =>
        cases errs with
        | nil =>
          simp [appendNonempty_eq, concatLines, String.append_empty, String.append_assoc,
            List.take_succ_cons]
        | cons e es =>
          simp [appendNonempty_eq, concatLines, String.append_assoc, List.take_succ_cons]

theorem runLoop_timeout (timeout : Option Int) (el : Nat → Int) (c : Int) :
    ∀ (j rem k : Nat) (outs errs : List String) (aO aE : String),
    j < rem →
    timeoutFires timeout (el (k + j)) = true →
    (runLoop timeout el none c rem k outs errs aO aE).raisedTimeout = true ∧
      (runLoop timeout el none c rem k outs errs aO aE).killed = true := by
  intro j
  induction j with
  | zero =>
    intro rem k outs errs aO aE hlt hfire
    cases rem with
    | zero => omega
    | succ rem =>
      rw [runLoop]
      simp only [reduceCtorEq, if_false]
      have h0 : timeoutFires timeout (el k) = true := by simpa using hfire
      rw [h0]
      simp
  | succ j ih =>
    intro rem k outs errs aO aE hlt hfire
    cases rem with
    | zero => omega
    | succ rem =>
      rw [runLoop]
      simp only [reduceCtorEq, if_false]
      by_cases h0 : timeoutFires timeout (el k) = true
      · rw [h0]; simp
      · rw [Bool.not_eq_true] at h0
        rw [h0]
        simp only [Bool.false_eq_true, if_false]
        exact ih rem (k + 1) outs.tail errs.tail _ _ (by omega)
          (by
            have : (k + 1) + j = k + (j + 1) := by omega
            rw [this]
            exact hfire)

theorem runLoop_kill_or_exit (timeout : Option Int) (el : Nat → Int)
    (interruptAt : Option Nat) (c : Int) :
    ∀ (rem k : Nat) (outs errs : List String) (aO aE : String),
    (runLoop timeout el interruptAt c rem k outs errs aO aE).killed = true ∨
      (runLoop timeout el interruptAt c rem k outs errs aO aE).exitedObserved = true := by
  intro rem
  induction rem with
  | zero =>
    intro k outs errs aO aE
    by_cases h : interruptAt = some k
    · left; simp [runLoop, h]
    · right; simp [runLoop, h]
  | succ rem ih =>
    intro k outs errs aO aE
    rw [runLoop]
    by_cases h : interruptAt = some k
    · rw [if_pos h]; left; rfl
    · rw [if_neg h]
      by_cases hf : timeoutFires timeout (el k) = true
      · rw [hf]; left; rfl
      · rw [Bool.not_eq_true] at hf
        rw [hf]
        simp only [Bool.false_eq_true, if_false]
        exact ih (k + 1) outs.tail errs.tail _ _

theorem lookupKey_upsertOne_self (fs : List (String × String)) (e : String × String) :
    lookupKey (upsertOne fs e) e.1 = some e.2 := by
  induction fs with
  | nil => simp [upsertOne, lookupKey]
  | cons kv rest ih =>
    by_cases h : kv.1 = e.1
    · simp [upsertOne, h, lookupKey]
    · simp [upsertOne, h, lookupKey, ih]

theorem lookupKey_upsertOne_ne (fs : List (String × String)) (e : String × String)
    (key : String) (h : key ≠ e.1) :
    lookupKey (upsertOne fs e) key = lookupKey fs key := by
  have he : ¬ e.1 = key := fun hh => h hh.symm
  induction fs with
  | nil => simp [upsertOne, lookupKey, he]
  | cons kv rest ih =>
    by_cases hkv : kv.1 = e.1
    · have hkey : ¬ kv.1 = key := by rw [hkv]; exact he
      simp [upsertOne, hkv, lookupKey, he, hkey]
    · by_cases hk : kv.1 = key
      · simp [upsertOne, hkv, lookupKey, hk, h]
      · simp [upsertOne, hkv, lookupKey, hk, ih]

theorem lookupKey_upsertAll_notMem (files : FilesDict) :
    ∀ (fs : List (String × String)) (key : String),
    key ∉ files.map Prod.fst →
    lookupKey (upsertAll fs files) key = lookupKey fs key := by
  induction files with
  | nil => intro fs key _; simp [upsertAll]
  | cons e rest ih =>
    intro fs key hmem
    have h1 : key ∉ rest.map Prod.fst := by
      intro hc
      exact hmem (by simp [hc])
    have h2 : key ≠ e.1 := by
      intro hc
      exact hmem (by simp [hc])
    have : upsertAll fs (e :: rest) = upsertAll (upsertOne fs e) rest := by
      simp [upsertAll]
    rw [this, ih (upsertOne fs e) key h1, lookupKey_upsertOne_ne fs e key h2]

theorem lookupKey_upsertAll_mem (files : FilesDict) :
    ∀ (fs : List (String × String)) (pc : String × String),
    (files.map Prod.fst).Nodup → pc ∈ files →
    lookupKey (upsertAll fs files) pc.1 = some pc.2 := by
  induction files with
  | nil => intro fs pc _ hmem; cases hmem
  | cons e rest ih =>
    intro fs pc hnodup hmem
    have hstep : upsertAll fs (e :: rest) = upsertAll (upsertOne fs e) rest := by
      simp [upsertAll]
    rw [List.map_cons, List.nodup_cons] at hnodup
    rcases List.mem_cons.mp hmem with heq | hrest
    · subst heq
      have hnot : pc.1 ∉ rest.map Prod.fst := hnodup.1
      rw [hstep, lookupKey_upsertAll_notMem rest (upsertOne fs pc) pc.1 hnot,
        lookupKey_upsertOne_self]
    · rw [hstep]
      exact ih (upsertOne fs e) pc hnodup.2 hrest

/-! Claim theorems. -/

/-- C1 counterexample: a command that prints the single line `hello` and exits
with code 0, with no timeout and no interruption, under the realizable
schedule in which the process has already exited at the first `p.poll()`
check (`exitObservedAt = 0`, as happens for a fast command whose output is
still buffered in the pipe): `run` returns `""` as its first component, not
the concatenation `"hello\n"` of the printed lines, so the claim as stated is
false. -/
theorem c1_counterexample :
    ((DiskExecutionEnv.run ⟨⟨"/workspace", [], true⟩⟩ "echo hello" none
        ⟨["hello\n"], [], 0⟩ ⟨0, fun _ => 0, none⟩).2).stdout = "" ∧
    concatLines ["hello\n"] = "hello\n" ∧
    ("" : String) ≠ "hello\n" :=
  ⟨rfl, rfl, by decide⟩

/-- C1 (amended): for every command that prints its lines to stdout, prints
nothing to stderr and terminates with exit code 0, a call to
`DiskExecutionEnv.run` with no timeout and no interruption returns the
concatenation of all the lines as first component, the empty string as second
and exit code 0 as third, **provided** the polling loop completes at least as
many iterations as there are lines before `p.poll()` first reports the exit
(i.e. no printed line is left unread in the pipe when the exit is observed). -/
theorem c1_run_returns_all_lines (env : DiskExecutionEnv) (command : String)
    (p : ProcBehavior) (s : Sched)
    (herr : p.stderrLines = []) (hcode : p.exitCode = 0)
    (hint : s.interruptAt = none)
    (hall : p.stdoutLines.length ≤ s.exitObservedAt) :
    (DiskExecutionEnv.run env command none p s).2 =
      ⟨concatLines p.stdoutLines, "", some 0, false, false, true⟩ := by
  obtain ⟨e, el, ia⟩ := s
  simp only at hint hall
  subst hint
  unfold DiskExecutionEnv.run
  simp only
  rw [runLoop_no_stop, List.take_of_length_le hall]
  simp [herr, hcode, concatLines, String.empty_append]

/-- C1 witness: a process printing the two lines `a` and `b`, observed exited
only after two loop iterations, yields exactly `"a\nb\n"`, empty stderr and
exit code 0. -/
theorem c1_witness :
    (DiskExecutionEnv.run ⟨⟨"/workspace", [], true⟩⟩ "printf 'a\nb\n'" none
        ⟨["a\n", "b\n"], [], 0⟩ ⟨2, fun _ => 0, none⟩).2 =
      ⟨"a\nb\n", "", some 0, false, false, true⟩ := by
  have h := c1_run_returns_all_lines ⟨⟨"/workspace", [], true⟩⟩ "printf 'a\nb\n'"
    ⟨["a\n", "b\n"], [], 0⟩ ⟨2, fun _ => 0, none⟩ rfl rfl rfl (by decide)
  rw [h]
  rfl

/-- C2 counterexample: a command that writes one line to stdout and one line
to stderr, and a run that completes without timeout or interruption (normal
exit, code 0) under the realizable schedule in which the process has already
exited at the first poll: neither written line appears in the corresponding
accumulated buffer, so the run is not content-complete and the claim as stated
is false. -/
theorem c2_counterexample :
    (DiskExecutionEnv.run ⟨⟨"/workspace", [], true⟩⟩ "sh build.sh" none
        ⟨["a\n"], ["e\n"], 0⟩ ⟨0, fun _ => 0, none⟩).2 =
      ⟨"", "", some 0, false, false, true⟩ ∧
    ¬ appearsIn "a\n" "" ∧ ¬ appearsIn "e\n" "" := by
  refine ⟨rfl, ?_, ?_⟩
  · rintro ⟨pre, post, hp⟩
    have hl := congrArg String.length hp
    rw [String.length_append, String.length_append] at hl
    have h0 : ("" : String).length = 0 := rfl
    have h2 : ("a\n" : String).length = 2 := rfl
    omega
  · rintro ⟨pre, post, hp⟩
    have hl := congrArg String.length hp
    rw [String.length_append, String.length_append] at hl
    have h0 : ("" : String).length = 0 := rfl
    have h2 : ("e\n" : String).length = 2 := rfl
    omega

/-- C2 (amended): for every command writing lines to both streams, a run of
`DiskExecutionEnv.run` that completes without timeout or interruption is
content-complete per stream — the accumulated stdout is exactly the
concatenation of the stdout lines in order, likewise stderr, and hence every
written line appears in its stream's buffer — **provided** the polling loop
completes at least as many iterations as either stream has lines before
`p.poll()` first reports the exit. -/
theorem c2_streams_content_complete (env : DiskExecutionEnv) (command : String)
    (p : ProcBehavior) (s : Sched)
    (hint : s.interruptAt = none)
    (ho : p.stdoutLines.length ≤ s.exitObservedAt)
    (he : p.stderrLines.length ≤ s.exitObservedAt) :
    ((DiskExecutionEnv.run env command none p s).2).stdout = concatLines p.stdoutLines ∧
    ((DiskExecutionEnv.run env command none p s).2).stderr = concatLines p.stderrLines ∧
    (∀ line ∈ p.stdoutLines,
      appearsIn line ((DiskExecutionEnv.run env command none p s).2).stdout) ∧
    (∀ line ∈ p.stderrLines,
      appearsIn line ((DiskExecutionEnv.run env command none p s).2).stderr) := by
  obtain ⟨e, el, ia⟩ := s
  simp only at hint ho he
  subst hint
  unfold DiskExecutionEnv.run
  simp only
  rw [runLoop_no_stop, List.take_of_length_le ho, List.take_of_length_le he]
  refine ⟨by simp [String.empty_append], by simp [String.empty_append], ?_, ?_⟩
  · intro line hline
    simpa [String.empty_append] using appearsIn_concatLines hline
  · intro line hline
    simpa [String.empty_append] using appearsIn_concatLines hline

/-- C2 witness: a process writing `x`, `y` to stdout and `e` to stderr,
observed exited after two iterations, accumulates `"x\ny\n"` and `"e\n"`. -/
theorem c2_witness :
    ((DiskExecutionEnv.run ⟨⟨"/workspace", [], true⟩⟩ "sh t.sh" none
        ⟨["x\n", "y\n"], ["e\n"], 0⟩ ⟨2, fun _ => 0, none⟩).2).stdout = "x\ny\n" ∧
    ((DiskExecutionEnv.run ⟨⟨"/workspace", [], true⟩⟩ "sh t.sh" none
        ⟨["x\n", "y\n"], ["e\n"], 0⟩ ⟨2, fun _ => 0, none⟩).2).stderr = "e\n" := by
  have h := c2_streams_content_complete ⟨⟨"/workspace", [], true⟩⟩ "sh t.sh"
    ⟨["x\n", "y\n"], ["e\n"], 0⟩ ⟨2, fun _ => 0, none⟩ rfl (by decide) (by decide)
  exact ⟨by rw [h.1]; rfl, by rw [h.2.1]; rfl⟩

/-- C3 counterexample: the supplied timeout `0` (an `int`, hence a supplied
timeout) is falsy in Python, so the guard `if timeout and ...` on source line
114 never fires: with a child still running at iteration 0 while the elapsed
time 5 already exceeds the timeout 0, `run` neither kills nor raises, and
returns a result triple normally — the claim as stated is false for timeout
0. -/
theorem c3_counterexample :
    (DiskExecutionEnv.run ⟨⟨"/workspace", [], true⟩⟩ "sleep 5" (some 0)
        ⟨[], [], 0⟩ ⟨1, fun _ => 5, none⟩).2 =
      ⟨"", "", some 0, false, false, true⟩ ∧
    (0 : Int) < 5 ∧ (0 : Nat) < 1 :=
  ⟨rfl, by decide, by decide⟩

/-- C3 (amended): for every command and every supplied **nonzero** timeout,
if, absent operator interruption, the polling loop reaches an iteration at
which the child has not yet been observed to exit and the elapsed wall-clock
time exceeds the timeout, then `run` kills the child and raises
`TimeoutError` rather than returning a result triple normally. -/
theorem c3_timeout_kills_and_raises (env : DiskExecutionEnv) (command : String)
    (p : ProcBehavior) (s : Sched) (t : Int) (j : Nat)
    (ht : t ≠ 0) (hj : j < s.exitObservedAt) (hel : t < s.elapsed j)
    (hint : s.interruptAt = none) :
    ((DiskExecutionEnv.run env command (some t) p s).2).raisedTimeout = true ∧
      ((DiskExecutionEnv.run env command (some t) p s).2).killed = true := by
  obtain ⟨e, el, ia⟩ := s
  simp only at hj hel hint
  subst hint
  unfold DiskExecutionEnv.run
  simp only
  have hfire : timeoutFires (some t) (el (0 + j)) = true := by
    rw [Nat.zero_add]
    simp [timeoutFires, bne_iff_ne, ht, hel]
  exact runLoop_timeout (some t) el p.exitCode j e 0 p.stdoutLines p.stderrLines "" ""
    hj hfire

/-- C3 witness: timeout 1, child still running at iteration 1 with elapsed
time 2: the run raises `TimeoutError` after killing the child. -/
theorem c3_witness :
    ((DiskExecutionEnv.run ⟨⟨"/workspace", [], true⟩⟩ "sleep 100" (some 1)
        ⟨[], [], 0⟩ ⟨2, fun k => if k = 0 then 0 else 2, none⟩).2).raisedTimeout = true ∧
    ((DiskExecutionEnv.run ⟨⟨"/workspace", [], true⟩⟩ "sleep 100" (some 1)
        ⟨[], [], 0⟩ ⟨2, fun k => if k = 0 then 0 else 2, none⟩).2).killed = true :=
  c3_timeout_kills_and_raises ⟨⟨"/workspace", [], true⟩⟩ "sleep 100"
    ⟨[], [], 0⟩ ⟨2, fun k => if k = 0 then 0 else 2, none⟩ 1 1
    (by decide) (by decide) (by decide) rfl

/-- C4 counterexample: a KeyboardInterrupt delivered at iteration 1 of the
polling loop makes `run` return normally with the partial output accumulated
so far — but its third component is `p.returncode`, which is still `None`
(the source calls `p.kill()` without a further `poll()` or `wait()`), not the
killed process's exit code at termination time, so the exit-code part of the
claim as stated is false. -/
theorem c4_counterexample :
    (DiskExecutionEnv.run ⟨⟨"/workspace", [], true⟩⟩ "python server.py" none
        ⟨["a\n", "b\n", "c\n"], [], 0⟩ ⟨3, fun _ => 0, some 1⟩).2 =
      ⟨"a\n", "", none, false, true, false⟩ ∧
    (∀ c : Int,
      (⟨"a\n", "", none, false, true, false⟩ : RunTrace).returncode ≠ some c) :=
  ⟨rfl, by intro c; simp⟩

/-- C4 (amended): for every command, if a KeyboardInterrupt is delivered at
iteration `k` of the polling loop (before the exit is observed and before any
timeout check fires), then `run` kills the child, emits its stopped-execution
notice (source lines 119-124, printing not modelled), and returns normally —
no exception — with exactly the stdout and stderr lines accumulated during the
first `k` iterations, and with `None` (the stale `p.returncode`) as third
component rather than an integer exit code. -/
theorem c4_interrupt_returns_partial (env : DiskExecutionEnv) (command : String)
    (timeout : Option Int) (p : ProcBehavior) (s : Sched) (k : Nat)
    (hint : s.interruptAt = some k) (hk : k ≤ s.exitObservedAt)
    (hfire : ∀ j, j < k → timeoutFires timeout (s.elapsed j) = false) :
    (DiskExecutionEnv.run env command timeout p s).2 =
      ⟨concatLines (p.stdoutLines.take k), concatLines (p.stderrLines.take k),
        none, false, true, false⟩ := by
  obtain ⟨e, el, ia⟩ := s
  simp only at hint hk hfire
  subst hint
  unfold DiskExecutionEnv.run
  simp only
  have h := runLoop_interrupt timeout el p.exitCode k e 0 p.stdoutLines p.stderrLines
    "" "" hk (fun j hj => by simpa using hfire j hj)
  rw [Nat.zero_add] at h
  simpa [String.empty_append] using h

/-- C4 witness: interrupt at iteration 1 of a run producing `a`, `b` on stdout
and `e` on stderr: the call returns normally with the partial buffers `"a\n"`
and `"e\n"` and `None` as exit code. -/
theorem c4_witness :
    (DiskExecutionEnv.run ⟨⟨"/workspace", [], true⟩⟩ "python loop.py" none
        ⟨["a\n", "b\n"], ["e\n"], 0⟩ ⟨5, fun _ => 0, some 1⟩).2 =
      ⟨"a\n", "e\n", none, false, true, false⟩ := by
  have h := c4_interrupt_returns_partial ⟨⟨"/workspace", [], true⟩⟩ "python loop.py"
    none ⟨["a\n", "b\n"], ["e\n"], 0⟩ ⟨5, fun _ => 0, some 1⟩ 1 rfl (by decide)
    (fun j hj => rfl)
  rw [h]
  rfl

/-- C5: on every exit path of `DiskExecutionEnv.run` — normal completion,
timeout expiry, operator interruption — the child process is terminated before
`run` finishes: either `p.kill()` was called (timeout and interrupt paths) or
the loop ended because `p.poll()` reported that the process had already
exited (normal path).  Holds for every command, timeout, process behaviour
and schedule. -/
theorem c5_child_terminated_every_path (env : DiskExecutionEnv) (command : String)
    (timeout : Option Int) (p : ProcBehavior) (s : Sched) :
    ((DiskExecutionEnv.run env command timeout p s).2).killed = true ∨
      ((DiskExecutionEnv.run env command timeout p s).2).exitedObserved = true := by
  unfold DiskExecutionEnv.run
  simp only
  exact runLoop_kill_or_exit timeout s.elapsed s.interruptAt p.exitCode
    s.exitObservedAt 0 p.stdoutLines p.stderrLines "" ""

/-- C6: for every command whose child exits with integer exit code `c`,
`DiskExecutionEnv.run` with no timeout and no interruption returns `some c`
unmodified as the third component, whatever output was accumulated, and raises
nothing — no exit-code remapping is performed. -/
theorem c6_exit_code_passthrough (env : DiskExecutionEnv) (command : String)
    (p : ProcBehavior) (s : Sched) (hint : s.interruptAt = none) :
    ((DiskExecutionEnv.run env command none p s).2).returncode = some p.exitCode ∧
      ((DiskExecutionEnv.run env command none p s).2).raisedTimeout = false := by
  obtain ⟨e, el, ia⟩ := s
  simp only at hint
  subst hint
  unfold DiskExecutionEnv.run
  simp only
  rw [runLoop_no_stop]
  exact ⟨rfl, rfl⟩

/-- C6 witness: for the command `exit 7` the returned exit code is exactly 7
and nothing is raised. -/
theorem c6_witness :
    ((DiskExecutionEnv.run ⟨⟨"/workspace", [], true⟩⟩ "exit 7" none
        ⟨[], [], 7⟩ ⟨1, fun _ => 0, none⟩).2).returncode = some 7 ∧
    ((DiskExecutionEnv.run ⟨⟨"/workspace", [], true⟩⟩ "exit 7" none
        ⟨[], [], 7⟩ ⟨1, fun _ => 0, none⟩).2).raisedTimeout = false :=
  c6_exit_code_passthrough ⟨⟨"/workspace", [], true⟩⟩ "exit 7"
    ⟨[], [], 7⟩ ⟨1, fun _ => 0, none⟩ rfl

/-- C7: every `popen` and every `run` of a `DiskExecutionEnv` spawns the child
with `cwd` equal to the directory currently materialized by the environment's
`FileStore` (`self.store.working_dir`), and a successful `upload` leaves every
uploaded file looked up by its path in that directory — so a run issued after
an upload completes observes the uploaded file set, never a stale directory.
(The `FileStore` collaborator is modelled from the spec.) -/
theorem c7_cwd_is_current_store_dir (env env2 : DiskExecutionEnv)
    (files : FilesDict) (command command2 : String) (timeout : Option Int)
    (p : ProcBehavior) (s : Sched)
    (hnodup : (files.map Prod.fst).Nodup)
    (hup : env.upload files = Except.ok env2) :
    (env2.popen command).cwd = env2.store.working_dir ∧
    ((DiskExecutionEnv.run env2 command2 timeout p s).1).cwd = env2.store.working_dir ∧
    env2.store.working_dir = env.store.working_dir ∧
    ∀ pc ∈ files, lookupKey env2.store.files pc.1 = some pc.2 := by
  unfold DiskExecutionEnv.upload FileStore.upload at hup
  by_cases hw : env.store.writable
  · rw [if_pos hw] at hup
    simp only at hup
    injection hup with hup
    subst hup
    refine ⟨rfl, rfl, rfl, ?_⟩
    intro pc hpc
    exact lookupKey_upsertAll_mem files env.store.files pc hnodup hpc
  · rw [if_neg hw] at hup
    simp at hup

/-- C7 witness: uploading `main.py` and `util.py` over an existing directory
and then spawning a command: the child's `cwd` is the store's working
directory and both uploaded files are found there by path. -/
theorem c7_witness :
    (DiskExecutionEnv.popen
        ⟨⟨"/project", [("old.py", "o"), ("main.py", "print"), ("util.py", "x")], true⟩⟩
        "python main.py").cwd = "/project" ∧
    lookupKey [("old.py", "o"), ("main.py", "print"), ("util.py", "x")] "main.py" =
      some "print" := by
  have h := c7_cwd_is_current_store_dir
    ⟨⟨"/project", [("old.py", "o")], true⟩⟩
    ⟨⟨"/project", [("old.py", "o"), ("main.py", "print"), ("util.py", "x")], true⟩⟩
    [("main.py", "print"), ("util.py", "x")]
    "python main.py" "python main.py" none ⟨[], [], 0⟩ ⟨0, fun _ => 0, none⟩
    (by decide) rfl
  exact ⟨h.1, h.2.2.2 ("main.py", "print") (by simp)⟩

/-- C8: `DiskExecutionEnv.upload` delegates the write to the `FileStore` and
returns the environment itself (its store updated exactly as the delegate
returns it, nothing else changed), enabling chaining; a delegate failure is
propagated unchanged with no error handling of its own. -/
theorem c8_upload_delegates_returns_self (env : DiskExecutionEnv) (files : FilesDict) :
    (∀ st, env.store.upload files = Except.ok st →
      env.upload files = Except.ok { env with store := st }) ∧
    (∀ e, env.store.upload files = Except.error e →
      env.upload files = Except.error e) := by
  constructor
  · intro st h
    unfold DiskExecutionEnv.upload
    rw [h]
  · intro e h
    unfold DiskExecutionEnv.upload
    rw [h]

/-- C8 witness: uploading `a.py` to a fresh writable store succeeds and
returns the environment with exactly the delegate's store. -/
theorem c8_witness :
    DiskExecutionEnv.upload ⟨⟨"/p", [], true⟩⟩ [("a.py", "x")] =
      Except.ok ⟨⟨"/p", [("a.py", "x")], true⟩⟩ :=
  (c8_upload_delegates_returns_self ⟨⟨"/p", [], true⟩⟩ [("a.py", "x")]).1
    ⟨"/p", [("a.py", "x")], true⟩ rfl

/-- C9: on every `CodeVectorRepository` whose index has not been loaded
(`_index = None`), both `query` and `relevent_code_chunks` raise
`ValueError("Index has not been loaded yet.")` and leave the instance's state
unchanged — no answer is ever produced from an unloaded index.  Holds for
every behaviour of the external library. -/
theorem c9_unloaded_query_raises {Doc LDoc Index Engine Retriever Answer Node : Type}
    (lib : LlamaLib Doc LDoc Index Engine Retriever Answer Node)
    (repo : CodeVectorRepository Index Engine Retriever)
    (q qc llm : String) (h : repo._index = none) :
    CodeVectorRepository.query lib repo q =
      (Except.error (PyErr.valueError "Index has not been loaded yet."), repo) ∧
    CodeVectorRepository.relevent_code_chunks lib repo qc llm =
      (Except.error (PyErr.valueError "Index has not been loaded yet."), repo) := by
  constructor
  · simp [CodeVectorRepository.query, h]
  · simp [CodeVectorRepository.relevent_code_chunks, h]

/-- C9 witness: a freshly initialized repository (index never loaded) raises
`ValueError` from both entry points and is returned unchanged. -/
theorem c9_witness :
    CodeVectorRepository.query natLib (CodeVectorRepository.init Nat Nat Nat) "what" =
      (Except.error (PyErr.valueError "Index has not been loaded yet."),
        CodeVectorRepository.init Nat Nat Nat) ∧
    CodeVectorRepository.relevent_code_chunks natLib
        (CodeVectorRepository.init Nat Nat Nat) "chunks" "default" =
      (Except.error (PyErr.valueError "Index has not been loaded yet."),
        CodeVectorRepository.init Nat Nat Nat) :=
  c9_unloaded_query_raises natLib (CodeVectorRepository.init Nat Nat Nat)
    "what" "chunks" "default" rfl

/-- C10: on every loaded `CodeVectorRepository`, the query engine and the
retriever are each constructed lazily at most once: a call to `query`
(resp. `relevent_code_chunks`) with an empty cache constructs the engine
(resp. the BM25 retriever with `similarity_top_k = 2`) from the index and
caches it; a call with a non-empty cache — whatever object `eng`/`ret` it
holds — uses exactly the cached object and leaves the state unchanged, never
reconstructing; and the instance state after a second `query` equals the state
after the first.  Holds for every behaviour of the external library. -/
theorem c10_lazy_engine_retriever_cached_once
    {Doc LDoc Index Engine Retriever Answer Node : Type}
    (lib : LlamaLib Doc LDoc Index Engine Retriever Answer Node)
    (repo : CodeVectorRepository Index Engine Retriever)
    (idx : Index) (h : repo._index = some idx) (q q2 llm : String) :
    (repo._query_engine = none →
      CodeVectorRepository.query lib repo q =
        (Except.ok (lib.engine_query (lib.as_query_engine idx "tree_summarize") q),
          { repo with _query_engine := some (lib.as_query_engine idx "tree_summarize") })) ∧
    (∀ eng, repo._query_engine = some eng →
      CodeVectorRepository.query lib repo q =
        (Except.ok (lib.engine_query eng q), repo)) ∧
    (repo._retriever = none →
      CodeVectorRepository.relevent_code_chunks lib repo q llm =
        (Except.ok (lib.retrieve (lib.bm25_from_defaults idx 2) q),
          { repo with _retriever := some (lib.bm25_from_defaults idx 2) })) ∧
    (∀ ret, repo._retriever = some ret →
      CodeVectorRepository.relevent_code_chunks lib repo q llm =
        (Except.ok (lib.retrieve ret q), repo)) ∧
    (CodeVectorRepository.query lib (CodeVectorRepository.query lib repo q).2 q2).2 =
      (CodeVectorRepository.query lib repo q).2 := by
  refine ⟨?_, ?_, ?_, ?_, ?_⟩
  · intro he
    simp [CodeVectorRepository.query, h, he]
  · intro eng he
    simp [CodeVectorRepository.query, h, he]
  · intro hr
    simp [CodeVectorRepository.relevent_code_chunks, h, hr]
  · intro ret hr
    simp [CodeVectorRepository.relevent_code_chunks, h, hr]
  · cases hqe : repo._query_engine with
    | some eng => simp [CodeVectorRepository.query, h, hqe]
    | none => simp [CodeVectorRepository.query, h, hqe]

/-- C10 witness: loading a fresh repository and querying it constructs and
caches the engine exactly once; a second query leaves the cached state
untouched. -/
theorem c10_witness :
    CodeVectorRepository.query natLib
        (CodeVectorRepository.load_from_directory natLib
          (CodeVectorRepository.init Nat Nat Nat) "/repo") "q" =
      (Except.ok 4, ⟨some 2, some 3, none⟩) ∧
    (CodeVectorRepository.query natLib
        (CodeVectorRepository.query natLib
          (CodeVectorRepository.load_from_directory natLib
            (CodeVectorRepository.init Nat Nat Nat) "/repo") "q").2 "longer query").2 =
      (CodeVectorRepository.query natLib
        (CodeVectorRepository.load_from_directory natLib
          (CodeVectorRepository.init Nat Nat Nat) "/repo") "q").2 := by
  have h := c10_lazy_engine_retriever_cached_once natLib
    (CodeVectorRepository.load_from_directory natLib
      (CodeVectorRepository.init Nat Nat Nat) "/repo") 2 rfl "q" "longer query" "default"
  refine ⟨?_, h.2.2.2.2⟩
  rw [h.1 rfl]
  rfl
